import Mathlib

/-!
Verification of the xpathrecord library: a declarative mapping layer that
projects XML document nodes into read-only, lazily evaluated record objects.
Field values are derived from XPath expressions with typed coercions.

The XPath evaluation engine (libxml2) is an external collaborator: it is
modelled as an `XmlEnv` providing `eval` (xpathEval), `content` (node string
content) and `prop` (attribute lookup).  Python's `datetime.datetime.strptime`
is likewise external and is modelled by `ministrptime` for the format
directives the library's default formats use.  Everything else is translated
from `xpathrecord/__init__.py`.
-/

deriving instance DecidableEq for Except

/-- Model of the external XPath evaluation adapter and DOM.  Nodes are
identified by natural numbers.  `eval n xp` is `n.xpathEval(xp)` (an ordered
list of result nodes), `content n` is `n.content`, and `prop n a` is
`n.prop(a)` (attribute lookup, `Option.none` when the attribute is absent). -/
structure XmlEnv where
  eval : Nat → String → List Nat
  content : Nat → String
  prop : Nat → String → Option String

/-- Model of a Python `datetime.datetime` value as produced by `strptime`
(the fields the library's formats can set; `strptime` defaults are year 1900,
month 1, day 1, midnight). -/
structure PyDatetime where
  year : Nat
  month : Nat
  day : Nat
  hour : Nat
  minute : Nat
  second : Nat
deriving DecidableEq, Repr

/-- Model of a Python `float` value as produced by the builtin `float(s)` on
a string: the exact rational value denoted by the accepted literal (IEEE-754
rounding of that rational to a double is outside the model; no claim compares
float values numerically), or a signed infinity or NaN. -/
inductive PyFloat where
  | finite (q : ℚ)
  | inf (neg : Bool)
  | nan (neg : Bool)
deriving DecidableEq, Repr

/-- The Python values that can sit in a Lazy cell's cache slot.  `PyVal.none`
is Python's `None` — it is both the cell's "uncomputed" sentinel and a value a
field computation may legitimately return (`FirstChildField` on no match).
`genRef i` is a reference to generator object number `i` (the value of a
`ChildrenField`), and `record n` is a record instance whose context node
is `n`. -/
inductive PyVal where
  | none
  | str (s : String)
  | int (i : Int)
  | bool (b : Bool)
  | dt (d : PyDatetime)
  | float (x : PyFloat)
  | genRef (i : Nat)
  | record (n : Nat)
deriving DecidableEq, Repr

/-- Model of Python's `str.strip()`: removes leading and trailing whitespace.
(Defined over the character list so that it evaluates inside the kernel.) -/
def pyStrip (s : String) : String :=
  ⟨(((s.data.dropWhile Char.isWhitespace).reverse).dropWhile Char.isWhitespace).reverse⟩

/-- Model of Python's `str.lower()` for the ASCII tokens the library uses. -/
def pyLower (s : String) : String := ⟨s.data.map Char.toLower⟩

/-- `TextField.value`: translation of
`''.join(n.content.strip() for n in dom.xpathEval(self.__xpath)).strip()`. -/
def TextField.value (doc : XmlEnv) (xpath : String) (dom : Nat) : String :=
  pyStrip (String.join ((doc.eval dom xpath).map (fun n => pyStrip (doc.content n))))

/-- The digit value of an ASCII digit character. -/
def digitVal (c : Char) : Nat := c.toNat - 48

/-- The natural number denoted by a list of ASCII digit characters. -/
def natOfDigits (cs : List Char) : Nat :=
  cs.foldl (fun a c => a * 10 + digitVal c) 0

/-- Model of Python's builtin `int(s)` on a string: optional surrounding
whitespace, an optional sign, then one or more digits; anything else raises
`ValueError` (modelled as `Except.error`).  Used by `IntField.value` and by
the test suite's `Bar.record_filter`. -/
def pyInt (s : String) : Except String Int :=
  let cs := (pyStrip s).data
  let sd : Bool × List Char :=
    match cs with
    | '-' :: rest => (true, rest)
    | '+' :: rest => (false, rest)
    | _ => (false, cs)
  if !sd.2.isEmpty && sd.2.all Char.isDigit then
    Except.ok (if sd.1 then -(Int.ofNat (natOfDigits sd.2)) else Int.ofNat (natOfDigits sd.2))
  else
    Except.error ("invalid literal for int(): " ++ s)

/-- `IntField.value`: `int(TextField.value(self, dom))`. -/
def IntField.value (doc : XmlEnv) (xpath : String) (dom : Nat) : Except String Int :=
  pyInt (TextField.value doc xpath dom)

/-- The optional exponent part of a float literal: empty, or `e`/`E`, an
optional sign and one or more digits consuming the rest of the input. -/
def parseExp : List Char → Option Int
  | [] => Option.some 0
  | e :: rest =>
      if e = 'e' ∨ e = 'E' then
        let sd : Bool × List Char :=
          match rest with
          | '-' :: r => (true, r)
          | '+' :: r => (false, r)
          | r => (false, r)
        if !sd.2.isEmpty && sd.2.all Char.isDigit then
          Option.some (if sd.1 then -(Int.ofNat (natOfDigits sd.2)) else Int.ofNat (natOfDigits sd.2))
        else Option.none
      else Option.none

/-- The unsigned decimal part of a float literal: `digits [. digits]` or
`. digits` (at least one digit overall), then an optional exponent; the whole
input must be consumed.  Returns the denoted rational. -/
def parseDecimalBody (cs : List Char) : Option ℚ :=
  let ds1 := cs.takeWhile Char.isDigit
  let rest1 := cs.dropWhile Char.isDigit
  match rest1 with
  | '.' :: rest2 =>
      let ds2 := rest2.takeWhile Char.isDigit
      let rest3 := rest2.dropWhile Char.isDigit
      if ds1.isEmpty && ds2.isEmpty then Option.none
      else
        match parseExp rest3 with
        | Option.some e =>
            Option.some
              (((natOfDigits ds1 : ℚ) + (natOfDigits ds2 : ℚ) / ((10 : ℚ) ^ ds2.length))
                * (10 : ℚ) ^ e)
        | Option.none => Option.none
  | _ =>
      if ds1.isEmpty then Option.none
      else
        match parseExp rest1 with
        | Option.some e => Option.some ((natOfDigits ds1 : ℚ) * (10 : ℚ) ^ e)
        | Option.none => Option.none

/-- Model of Python's builtin `float(s)` on an ASCII string: optional
surrounding whitespace, an optional sign, then `inf`/`infinity`/`nan`
(case-insensitive) or a decimal literal with optional exponent; anything else
raises `ValueError` (modelled as `Except.error`). -/
def pyFloat (s : String) : Except String PyFloat :=
  let cs := (pyStrip s).data
  let sd : Bool × List Char :=
    match cs with
    | '-' :: rest => (true, rest)
    | '+' :: rest => (false, rest)
    | _ => (false, cs)
  let body := sd.2.map Char.toLower
  if body = ['i', 'n', 'f'] ∨ body = ['i', 'n', 'f', 'i', 'n', 'i', 't', 'y'] then
    Except.ok (PyFloat.inf sd.1)
  else if body = ['n', 'a', 'n'] then
    Except.ok (PyFloat.nan sd.1)
  else
    match parseDecimalBody sd.2 with
    | Option.some q => Except.ok (PyFloat.finite (if sd.1 then -q else q))
    | Option.none => Except.error ("could not convert string to float: " ++ s)

/-- `FloatField.value`: `float(TextField.value(self, dom))`. -/
def FloatField.value (doc : XmlEnv) (xpath : String) (dom : Nat) : Except String PyFloat :=
  pyFloat (TextField.value doc xpath dom)

/-- `BooleanField`: the xpath together with the normalized (lower-cased)
true/false token lists fixed at declaration time. -/
structure BooleanField where
  xpath : String
  true_values : List String
  false_values : List String
deriving DecidableEq, Repr

/-- `BooleanField.DEFAULT_TRUE_VALUES`. -/
def BooleanField.DEFAULT_TRUE_VALUES : List String := ["y", "yes", "true", "t", "ok"]

/-- `BooleanField.DEFAULT_FALSE_VALUES`. -/
def BooleanField.DEFAULT_FALSE_VALUES : List String := ["n", "no", "false", "f", "nil"]

/-- `BooleanField.__init__`: absent token lists fall back to the defaults;
supplied ones are lower-cased element-wise. -/
def BooleanField.make (xpath : String) (true_values false_values : Option (List String)) :
    BooleanField :=
  ⟨xpath,
   match true_values with
   | Option.none => BooleanField.DEFAULT_TRUE_VALUES
   | Option.some l => l.map pyLower,
   match false_values with
   | Option.none => BooleanField.DEFAULT_FALSE_VALUES
   | Option.some l => l.map pyLower⟩

/-- `BooleanField.value`: `s = TextField.value(self, dom).strip().lower()`;
true if `s` is in the true tokens, else false if in the false tokens, else
a `ValueError`. -/
def BooleanField.value (doc : XmlEnv) (f : BooleanField) (dom : Nat) : Except String Bool :=
  let s := pyLower (pyStrip (TextField.value doc f.xpath dom))
  if s ∈ f.true_values then Except.ok true
  else if s ∈ f.false_values then Except.ok false
  else Except.error ("The value (" ++ s ++ ") is neither true nor false")

/-- Does the character list fully match the regex `\.\d+ -\d+` (to the end of
the input, i.e. `\.\d+ -\d+$` when applied to a suffix)?  Used by
`DatetimeField.__kluge_date`. -/
def klugeMatch (cs : List Char) : Bool :=
  match cs with
  | '.' :: rest =>
      let ds := rest.takeWhile Char.isDigit
      let rest2 := rest.dropWhile Char.isDigit
      !ds.isEmpty &&
        (match rest2 with
         | ' ' :: '-' :: rest3 => !rest3.isEmpty && rest3.all Char.isDigit
         | _ => false)
  | _ => false

/-- Deletes the leftmost (hence, since the pattern is anchored at `$`, the
longest) suffix matching `\.\d+ -\d+$`; the identity when no suffix matches. -/
def klugeStrip : List Char → List Char
  | [] => []
  | c :: rest => if klugeMatch (c :: rest) then [] else c :: klugeStrip rest

/-- `DatetimeField.__kluge_date`: `re.sub` of the compiled pattern
`\.\d+ -\d+$` with the empty string. -/
def klugeDate (s : String) : String := ⟨klugeStrip s.data⟩

/-- Parses exactly four ASCII digits (Python `_strptime`'s regex for `%Y`). -/
def parseYear4 : List Char → Option (Nat × List Char)
  | a :: b :: c :: d :: rest =>
      if a.isDigit && b.isDigit && c.isDigit && d.isDigit then
        Option.some (((digitVal a * 10 + digitVal b) * 10 + digitVal c) * 10 + digitVal d, rest)
      else Option.none
  | _ => Option.none

/-- Parses a one- or two-digit number accepted by `valid`, preferring two
digits (the alternation order of Python `_strptime`'s regexes for
`%m`, `%d`, `%H`, `%M`, `%S`). -/
def parseNum2 (valid : Nat → Bool) : List Char → Option (Nat × List Char)
  | a :: b :: rest =>
      if a.isDigit && b.isDigit && valid (digitVal a * 10 + digitVal b) then
        Option.some (digitVal a * 10 + digitVal b, rest)
      else if a.isDigit && valid (digitVal a) then
        Option.some (digitVal a, b :: rest)
      else Option.none
  | [a] =>
      if a.isDigit && valid (digitVal a) then Option.some (digitVal a, [])
      else Option.none
  | [] => Option.none

/-- The number parser for one `strptime` directive character. -/
def parseDir (c : Char) (cs : List Char) : Option (Nat × List Char) :=
  if c = 'Y' then parseYear4 cs
  else if c = 'm' then parseNum2 (fun v => decide (1 ≤ v) && decide (v ≤ 12)) cs
  else if c = 'd' then parseNum2 (fun v => decide (1 ≤ v) && decide (v ≤ 31)) cs
  else if c = 'H' then parseNum2 (fun v => decide (v ≤ 23)) cs
  else if c = 'M' then parseNum2 (fun v => decide (v ≤ 59)) cs
  else if c = 'S' then parseNum2 (fun v => decide (v ≤ 61)) cs
  else Option.none

/-- Stores the numeric result of one `strptime` directive. -/
def setDir (c : Char) (v : Nat) (tm : PyDatetime) : PyDatetime :=
  if c = 'Y' then { tm with year := v }
  else if c = 'm' then { tm with month := v }
  else if c = 'd' then { tm with day := v }
  else if c = 'H' then { tm with hour := v }
  else if c = 'M' then { tm with minute := v }
  else if c = 'S' then { tm with second := v }
  else tm

/-- Runs a `strptime` format (first list) against an input (second list):
`%c` directives parse numbers, other characters must match literally, and the
whole input must be consumed (Python raises on unconverted trailing data). -/
def runFmt : List Char → List Char → PyDatetime → Option PyDatetime
  | [], [], tm => Option.some tm
  | [], _ :: _, _ => Option.none
  | '%' :: c :: fmtRest, cs, tm =>
      match parseDir c cs with
      | Option.some vcs => runFmt fmtRest vcs.2 (setDir c vcs.1 tm)
      | Option.none => Option.none
  | ['%'], _, _ => Option.none
  | _ :: _, [], _ => Option.none
  | c :: fmtRest, d :: cs, tm => if c = d then runFmt fmtRest cs tm else Option.none

/-- Model of the external `datetime.datetime.strptime(s, fmt)` for the
directive characters used by `DatetimeField.DEFAULT_FORMATS`
(`%Y %m %d %H %M %S` and literal characters); `Option.none` models the
`ValueError` Python raises when the format does not match. -/
def ministrptime (s fmt : String) : Option PyDatetime :=
  runFmt fmt.data s.data ⟨1900, 1, 1, 0, 0, 0⟩

/-- `DatetimeField`: the xpath together with the declaration-time format
list (already normalized by `DatetimeField.make`). -/
structure DatetimeField where
  xpath : String
  format : List String
deriving DecidableEq, Repr

/-- `DatetimeField.DEFAULT_FORMATS`, in source order. -/
def DatetimeField.DEFAULT_FORMATS : List String :=
  ["%Y-%m-%d %H:%M:%S", "%Y-%m-%d %H:%M", "%Y-%m-%d", "%Y%m%d", "%m/%d/%Y"]

/-- `DatetimeField.__init__`: a single string becomes a one-element tuple,
a list is kept in order (the default argument is the empty list). -/
def DatetimeField.make (xpath : String) (format : String ⊕ List String) : DatetimeField :=
  ⟨xpath,
   match format with
   | Sum.inl s => [s]
   | Sum.inr l => l⟩

/-- The `for fmt in ...: try: return strptime(s, fmt) except: pass` loop of
`DatetimeField.value`, with the trailing `raise ValueError`. -/
def strptimeLoop (strp : String → String → Option PyDatetime) (s : String) :
    List String → Except String PyDatetime
  | [] => Except.error ("Can not parse date: " ++ s)
  | fmt :: rest =>
      match strp s fmt with
      | Option.some d => Except.ok d
      | Option.none => strptimeLoop strp s rest

/-- `DatetimeField.value`, parameterized by the external `strptime`:
kluge-cleans the Text result, then tries the declaration formats followed by
`DEFAULT_FORMATS`, returning the first success. -/
def DatetimeField.value (strp : String → String → Option PyDatetime) (doc : XmlEnv)
    (f : DatetimeField) (dom : Nat) : Except String PyDatetime :=
  let s := klugeDate (TextField.value doc f.xpath dom)
  strptimeLoop strp s (f.format ++ DatetimeField.DEFAULT_FORMATS)

/-- A field declaration of a record schema (`xpathrecord.Field` subclass
instances stored as class attributes).  `Children`/`FirstChild` declarations
carry a sub-schema and are modelled separately (`ChildrenField.valueList`,
`FirstChildField.value`) because their value types recurse into records. -/
inductive FieldDecl where
  | text (xpath : String)
  | intF (xpath : String)
  | floatF (xpath : String)
  | boolF (xpath : String) (true_values false_values : List String)
  | datetimeF (xpath : String) (format : List String)
  | nodeExists (xpath : String)
deriving DecidableEq, Repr

/-- Dispatch of `Field.value` for the scalar field declarations, the value
boxed as the Python value stored by a Lazy cell. -/
def FieldDecl.value (doc : XmlEnv) : FieldDecl → Nat → Except String PyVal
  | FieldDecl.text xp, dom => Except.ok (PyVal.str (TextField.value doc xp dom))
  | FieldDecl.intF xp, dom => (IntField.value doc xp dom).map PyVal.int
  | FieldDecl.floatF xp, dom => (FloatField.value doc xp dom).map PyVal.float
  | FieldDecl.boolF xp tv fv, dom => (BooleanField.value doc ⟨xp, tv, fv⟩ dom).map PyVal.bool
  | FieldDecl.datetimeF xp fmts, dom =>
      (DatetimeField.value ministrptime doc ⟨xp, fmts⟩ dom).map PyVal.dt
  | FieldDecl.nodeExists xp, dom =>
      Except.ok (PyVal.bool (decide (0 < (doc.eval dom xp).length)))

/-- A record instance: its context node and, per declared field name, a Lazy
cell, i.e. a cache slot (initially `PyVal.none`) paired with the field. -/
structure RecordInst where
  dom : Nat
  cells : List (String × (PyVal × FieldDecl))
deriving DecidableEq, Repr

/-- `XPathRecord.__init__`: binds the context node and replaces every declared
field by a Lazy cell over that node.  No field `value` is invoked and no XPath
is evaluated: the construction does not even consult the document. -/
def XPathRecord.init (schema : List (String × FieldDecl)) (dom : Nat) : RecordInst :=
  ⟨dom, schema.map (fun nf => (nf.1, (PyVal.none, nf.2)))⟩

/-- The `for node in dom.xpathEval(xpath): if cls.record_filter(node): yield
cls(node)` loop of `XPathRecord.records`. -/
def XPathRecord.recordsLoop (schema : List (String × FieldDecl)) (filt : Nat → Bool) :
    List Nat → List RecordInst
  | [] => []
  | n :: rest =>
      if filt n then XPathRecord.init schema n :: XPathRecord.recordsLoop schema filt rest
      else XPathRecord.recordsLoop schema filt rest

/-- `XPathRecord.records(dom, xpath)`: the class-level factory.  The default
`record_filter` is `fun _ => true` (accepts every node). -/
def XPathRecord.records (schema : List (String × FieldDecl)) (doc : XmlEnv) (filt : Nat → Bool)
    (dom : Nat) (xpath : String) : List RecordInst :=
  XPathRecord.recordsLoop schema filt (doc.eval dom xpath)

/-- The nested `for n in dom.xpathEval(xpath): for x in cls.records(n, '.'):
yield x` loops of `ChildrenField.value`, flattening sub-records across outer
matches in result order. -/
def ChildrenField.valueLoop (subSchema : List (String × FieldDecl)) (doc : XmlEnv)
    (filt : Nat → Bool) : List Nat → List RecordInst
  | [] => []
  | n :: rest =>
      XPathRecord.records subSchema doc filt n "." ++
        ChildrenField.valueLoop subSchema doc filt rest

/-- The sequence of items yielded by one full iteration of the generator that
`ChildrenField.value` returns. -/
def ChildrenField.valueList (subSchema : List (String × FieldDecl)) (doc : XmlEnv)
    (filt : Nat → Bool) (xpath : String) (dom : Nat) : List RecordInst :=
  ChildrenField.valueLoop subSchema doc filt (doc.eval dom xpath)

/-- The `for n in ...: for x in ...: return x` loops of
`FirstChildField.value`; falling off the end returns Python `None`,
modelled as `Option.none`. -/
def FirstChildField.valueLoop (subSchema : List (String × FieldDecl)) (doc : XmlEnv)
    (filt : Nat → Bool) : List Nat → Option RecordInst
  | [] => Option.none
  | n :: rest =>
      match XPathRecord.records subSchema doc filt n "." with
      | [] => FirstChildField.valueLoop subSchema doc filt rest
      | x :: _ => Option.some x

/-- `FirstChildField.value`: the first produced sub-record, or `None`. -/
def FirstChildField.value (subSchema : List (String × FieldDecl)) (doc : XmlEnv)
    (filt : Nat → Bool) (xpath : String) (dom : Nat) : Option RecordInst :=
  FirstChildField.valueLoop subSchema doc filt (doc.eval dom xpath)

/-- `Lazy.__call__`, over an abstract state `S` threaded through the field's
`value` computation (`S` carries whatever the instrumentation of the external
adapter needs: an evaluation counter, the heap of live generator objects, or
both).  The cache slot starts at `PyVal.none`; `value` is invoked exactly when
the slot `is None`, its effects on `S` persist whether it returns or raises,
a raise (`Except.error`) leaves the slot unset, and a returned value — even
Python `None` itself — is stored back into the slot. -/
def Lazy.call {S : Type} (value : S → Except String PyVal × S) :
    PyVal × S → Except String PyVal × (PyVal × S) :=
  fun cs =>
    if cs.1 = PyVal.none then
      match value cs.2 with
      | (Except.ok v, s) => (Except.ok v, (v, s))
      | (Except.error e, s) => (Except.error e, (PyVal.none, s))
    else (Except.ok cs.1, cs)

/-- The heap of live generator objects: slot `i` holds the items generator
object `i` has not yet yielded. -/
abbrev GenHeap := List (List PyVal)

/-- `ChildrenField.value(dom)` as a Lazy-cell computation: calling the
generator function allocates a fresh generator object (holding the items one
full iteration would yield) and returns a reference to it.  It never raises. -/
def childrenComp (subSchema : List (String × FieldDecl)) (doc : XmlEnv) (filt : Nat → Bool)
    (xpath : String) (dom : Nat) : GenHeap → Except String PyVal × GenHeap :=
  fun h =>
    (Except.ok (PyVal.genRef h.length),
     h ++ [(ChildrenField.valueList subSchema doc filt xpath dom).map (fun r => PyVal.record r.dom)])

/-- Iterating generator object `i` to exhaustion: yields its remaining items
and leaves the object empty. -/
def consumeGen (h : GenHeap) (i : Nat) : List PyVal × GenHeap :=
  (h.getD i [], h.set i [])

/-- `FirstChildField.value(dom)` as a Lazy-cell computation instrumented with
an invocation counter: each call performs the field's XPath evaluation (the
counter increases) and returns the first sub-record, or Python `None`. -/
def countingFC (subSchema : List (String × FieldDecl)) (doc : XmlEnv) (filt : Nat → Bool)
    (xpath : String) (dom : Nat) : Nat → Except String PyVal × Nat :=
  fun cnt =>
    (Except.ok
      (match FirstChildField.value subSchema doc filt xpath dom with
       | Option.some r => PyVal.record r.dom
       | Option.none => PyVal.none),
     cnt + 1)

/-- A `TextField.value` computation instrumented with an invocation counter:
each call performs the field's XPath evaluation and returns the text. -/
def countingText (doc : XmlEnv) (xpath : String) (dom : Nat) :
    Nat → Except String PyVal × Nat :=
  fun cnt => (Except.ok (PyVal.str (TextField.value doc xpath dom)), cnt + 1)

/-- A field computation (over a counter state) whose first evaluation raises
and whose second succeeds — the instrumented adapter for checking that the
Lazy cell never caches a failure. -/
def flakyComp : Nat → Except String PyVal × Nat :=
  fun cnt => if cnt = 0 then (Except.error "boom", 1) else (Except.ok (PyVal.int 5), 2)

/-- Specification-side restatement of the Text coercion, written from the
spec's words: the concatenation, in result order, of each result node's
trimmed string content. -/
def concatTrimmedContents (doc : XmlEnv) : List Nat → String
  | [] => ""
  | n :: rest => pyStrip (doc.content n) ++ concatTrimmedContents doc rest

/-- The test suite's `Bar.record_filter`: accept a node exactly when its
`arg` attribute parses as a Python int (a missing attribute is `None`, and
`int(None)` raises, hence rejects). -/
def Bar.record_filter (doc : XmlEnv) (n : Nat) : Bool :=
  match doc.prop n "arg" with
  | Option.some s =>
      match pyInt s with
      | Except.ok _ => true
      | Except.error _ => false
  | Option.none => false

/-- The `arg`/`int_arg` part of the test suite's `Bar` schema. -/
def barSchema : List (String × FieldDecl) :=
  [("arg", FieldDecl.text "@arg"), ("int_arg", FieldDecl.intF "@arg")]

/-- A document with no matches for any XPath except the self marker `.`. -/
def emptyDoc : XmlEnv :=
  ⟨fun n xp => if xp = "." then [n] else [],
   fun _ => "",
   fun _ _ => Option.none⟩

/-- A document in which node 0 has a single text result node 7 (content
`hello`) under the XPath `t`. -/
def helloDoc : XmlEnv :=
  ⟨fun n xp => if xp = "." then [n] else if xp = "t" then (if n = 0 then [7] else []) else [],
   fun n => if n = 7 then "hello" else "",
   fun _ _ => Option.none⟩

/-- A document in which node 0 has exactly one `stuff` child, node 5. -/
def childDoc : XmlEnv :=
  ⟨fun n xp =>
     if xp = "." then [n]
     else if xp = "stuff" then (if n = 0 then [5] else [])
     else [],
   fun _ => "",
   fun _ _ => Option.none⟩

/-- A document in which node 3 carries the unparseable attribute value
`stuff` (attribute result node 13) under the XPath `@arg`. -/
def malDoc : XmlEnv :=
  ⟨fun n xp =>
     if xp = "." then [n]
     else if xp = "@arg" then (if n = 3 then [13] else [])
     else [],
   fun n => if n = 13 then "stuff" else "",
   fun _ _ => Option.none⟩

/-- The end-to-end scenario document: root 0 has three `bar` siblings
(nodes 1, 2, 3) whose `arg` attributes (result nodes 11, 12, 13) are
`1`, `2` and `stuff`, in document order. -/
def barDoc : XmlEnv :=
  ⟨fun n xp =>
     if xp = "." then [n]
     else if xp = "//bar" then (if n = 0 then [1, 2, 3] else [])
     else if xp = "@arg" then
       (if n = 1 then [11] else if n = 2 then [12] else if n = 3 then [13] else [])
     else [],
   fun n => if n = 11 then "1" else if n = 12 then "2" else if n = 13 then "stuff" else "",
   fun n attr =>
     if attr = "arg" then
       (if n = 1 then Option.some "1"
        else if n = 2 then Option.some "2"
        else if n = 3 then Option.some "stuff"
        else Option.none)
     else Option.none⟩

/-- A document whose nodes 1–4 carry, under `@date`, the attribute result
nodes 21–24 with the spec's four Datetime test strings. -/
def dtDoc : XmlEnv :=
  ⟨fun n xp =>
     if xp = "@date" then
       (if n = 1 then [21] else if n = 2 then [22]
        else if n = 3 then [23] else if n = 4 then [24] else [])
     else if xp = "." then [n]
     else [],
   fun n =>
     if n = 21 then "20061028"
     else if n = 22 then "2006-10-28"
     else if n = 23 then "2006-10-28 00:00:00"
     else if n = 24 then "Bogus Format"
     else "",
   fun _ _ => Option.none⟩

/-- A document whose node 0 yields the text `x` (result node 9) under `@b`. -/
def overlapDoc : XmlEnv :=
  ⟨fun n xp => if xp = "@b" then (if n = 0 then [9] else []) else if xp = "." then [n] else [],
   fun n => if n = 9 then "x" else "",
   fun _ _ => Option.none⟩

/-- The `baz` part of the test suite's sample: under `@average`, node 1 has
the attribute result node 31 with content `1.234` and node 2 has the
attribute result node 32 with content `badfloat`. -/
def bazDoc : XmlEnv :=
  ⟨fun n xp =>
     if xp = "." then [n]
     else if xp = "@average" then (if n = 1 then [31] else if n = 2 then [32] else [])
     else [],
   fun n => if n = 31 then "1.234" else if n = 32 then "badfloat" else "",
   fun _ _ => Option.none⟩

/-- A Boolean field declared with overlapping token sets: `x` is both a true
token and a false token. -/
def overlapBF : BooleanField :=
  BooleanField.make "@b" (Option.some ["x"]) (Option.some ["x"])

theorem strFoldlAppend (l : List String) (a : String) :
    l.foldl (fun r s => r ++ s) a = a ++ l.foldl (fun r s => r ++ s) "" := by
  induction l generalizing a with
  | nil => simp [List.foldl]
  | cons x xs ih =>
      simp only [List.foldl]
      rw [ih (a ++ x), ih ("" ++ x), String.empty_append, String.append_assoc]

theorem stringJoinCons (x : String) (xs : List String) :
    String.join (x :: xs) = x ++ String.join xs := by
  simp only [String.join, List.foldl]
  rw [strFoldlAppend, String.empty_append]

theorem joinMapEqConcat (doc : XmlEnv) (l : List Nat) :
    String.join (l.map (fun n => pyStrip (doc.content n))) = concatTrimmedContents doc l := by
  induction l with
  | nil => rfl
  | cons n rest ih =>
      simp only [List.map, concatTrimmedContents, ← ih]
      exact stringJoinCons _ _

theorem recordsLoopEqFilterMap (schema : List (String × FieldDecl)) (filt : Nat → Bool)
    (l : List Nat) :
    XPathRecord.recordsLoop schema filt l = (l.filter filt).map (XPathRecord.init schema) := by
  induction l with
  | nil => rfl
  | cons n rest ih =>
      by_cases h : filt n <;>
        simp [XPathRecord.recordsLoop, List.filter_cons, h, ih]

theorem firstChildLoopEqHead (subSchema : List (String × FieldDecl)) (doc : XmlEnv)
    (filt : Nat → Bool) (l : List Nat) :
    FirstChildField.valueLoop subSchema doc filt l
      = (ChildrenField.valueLoop subSchema doc filt l).head? := by
  induction l with
  | nil => rfl
  | cons n rest ih =>
      cases h : XPathRecord.records subSchema doc filt n "." with
      | nil => simp [FirstChildField.valueLoop, ChildrenField.valueLoop, h, ih]
      | cons x xs => simp [FirstChildField.valueLoop, ChildrenField.valueLoop, h]

theorem childrenLoopEqFilterMap (subSchema : List (String × FieldDecl)) (doc : XmlEnv)
    (filt : Nat → Bool) (hdot : ∀ n, doc.eval n "." = [n]) (l : List Nat) :
    ChildrenField.valueLoop subSchema doc filt l
      = (l.filter filt).map (XPathRecord.init subSchema) := by
  induction l with
  | nil => rfl
  | cons n rest ih =>
      by_cases h : filt n <;>
        simp [ChildrenField.valueLoop, XPathRecord.records, hdot n,
              XPathRecord.recordsLoop, List.filter_cons, h, ih]

theorem strptimeLoopEqFindSome (strp : String → String → Option PyDatetime) (s : String)
    (l : List String) :
    strptimeLoop strp s l
      = match l.findSome? (strp s) with
        | Option.some d => Except.ok d
        | Option.none => Except.error ("Can not parse date: " ++ s) := by
  induction l with
  | nil => rfl
  | cons fmt rest ih =>
      cases h : strp s fmt <;> simp [strptimeLoop, List.findSome?_cons, h, ih]

theorem getDSetSelf {α : Type} (l : List α) (i : Nat) (d : α) : (l.set i d).getD i d = d := by
  induction l generalizing i with
  | nil => simp [List.getD]
  | cons x xs ih =>
      cases i with
      | zero => simp [List.set, List.getD]
      | succ j => simpa [List.set, List.getD] using ih j

/-- C3: for every Text field and every context node whose XPath evaluation
yields k result nodes, `value` returns the trim of the concatenation, in
result order, of each result node's trimmed string content; when k = 0 the
result is the empty string.  (`TextField.value` is a total function into
`String`, so a Text field's value never fails.) -/
theorem text_value_spec (doc : XmlEnv) (xpath : String) (dom : Nat) :
    TextField.value doc xpath dom = pyStrip (concatTrimmedContents doc (doc.eval dom xpath))
    ∧ (doc.eval dom xpath = [] → TextField.value doc xpath dom = "") := by
  constructor
  · unfold TextField.value
    rw [joinMapEqConcat]
  · intro h
    unfold TextField.value
    rw [h]
    rfl

/-- C3 witness: on a document with zero matches the Text value is the empty
string. -/
theorem text_value_spec_witness : TextField.value emptyDoc "x" 0 = "" :=
  (text_value_spec emptyDoc "x" 0).2 rfl

/-- C6: `records(rootNode, xpath)` evaluates the xpath via the adapter,
applies the filter predicate to each candidate node in result order,
constructs exactly one record instance over each accepted node, and produces
the records in document/result order; the default filter predicate accepts
every node.  End to end: three `bar` siblings with `arg` values `1`, `2`,
`stuff` under an integer-`arg` filter yield exactly the two records over the
first two nodes, whose `arg` Text values are `"1"` and `"2"`. -/
theorem records_factory_spec (schema : List (String × FieldDecl)) (doc : XmlEnv)
    (filt : Nat → Bool) (dom : Nat) (xpath : String) :
    XPathRecord.records schema doc filt dom xpath
      = ((doc.eval dom xpath).filter filt).map (XPathRecord.init schema)
    ∧ XPathRecord.records schema doc (fun _ => true) dom xpath
      = (doc.eval dom xpath).map (XPathRecord.init schema)
    ∧ (XPathRecord.records barSchema barDoc (Bar.record_filter barDoc) 0 "//bar").map
        RecordInst.dom = [1, 2]
    ∧ TextField.value barDoc "@arg" 1 = "1"
    ∧ TextField.value barDoc "@arg" 2 = "2" := by
  refine ⟨recordsLoopEqFilterMap schema filt _, ?_, by decide, by decide, by decide⟩
  rw [XPathRecord.records, recordsLoopEqFilterMap]
  simp

/-- C7: a FirstChild field's value is exactly the head of the sequence the
corresponding Children field would produce: the first surviving sub-record in
document order when one or more survive, and the sentinel absent value
`Option.none` (Python `None`, not an error) when no outer match yields a
surviving sub-record. -/
theorem first_child_spec (subSchema : List (String × FieldDecl)) (doc : XmlEnv)
    (filt : Nat → Bool) (xpath : String) (dom : Nat)
    (hdot : ∀ n, doc.eval n "." = [n]) :
    FirstChildField.value subSchema doc filt xpath dom
      = (ChildrenField.valueList subSchema doc filt xpath dom).head?
    ∧ FirstChildField.value subSchema doc filt xpath dom
      = (((doc.eval dom xpath).filter filt).map (XPathRecord.init subSchema)).head? := by
  constructor
  · exact firstChildLoopEqHead subSchema doc filt _
  · rw [FirstChildField.value, firstChildLoopEqHead,
        childrenLoopEqFilterMap subSchema doc filt hdot]

/-- C7 witness: with one match the value is the first sub-record; with zero
matches it is the absent value. -/
theorem first_child_spec_witness :
    FirstChildField.value [] childDoc (fun _ => true) "stuff" 0
      = Option.some (XPathRecord.init [] 5)
    ∧ FirstChildField.value [] emptyDoc (fun _ => true) "bar" 0 = Option.none :=
  ⟨((first_child_spec [] childDoc (fun _ => true) "stuff" 0 (fun _ => rfl)).2).trans (by decide),
   ((first_child_spec [] emptyDoc (fun _ => true) "bar" 0 (fun _ => rfl)).2).trans (by decide)⟩

/-- C4: a Datetime field's value kluge-cleans the Text result (stripping a
trailing `\.<digits> -<digits>$` suffix), then returns the first format that
parses among the declaration-time formats (a single pattern becoming a
one-element list) followed by the fixed `DEFAULT_FORMATS`, and is a ParseError
when every format fails; concretely, `20061028`, `2006-10-28` and
`2006-10-28 00:00:00` all parse to year 2006, month 10, day 28, while
`Bogus Format` is a ParseError. -/
theorem datetime_value_spec (strp : String → String → Option PyDatetime) (doc : XmlEnv)
    (f : DatetimeField) (dom : Nat) :
    (DatetimeField.value strp doc f dom
      = match (f.format ++ DatetimeField.DEFAULT_FORMATS).findSome?
            (strp (klugeDate (TextField.value doc f.xpath dom))) with
        | Option.some d => Except.ok d
        | Option.none =>
            Except.error ("Can not parse date: " ++ klugeDate (TextField.value doc f.xpath dom)))
    ∧ (∀ xp fmt, DatetimeField.make xp (Sum.inl fmt) = ⟨xp, [fmt]⟩)
    ∧ (∀ xp fmts, DatetimeField.make xp (Sum.inr fmts) = ⟨xp, fmts⟩)
    ∧ DatetimeField.DEFAULT_FORMATS
        = ["%Y-%m-%d %H:%M:%S", "%Y-%m-%d %H:%M", "%Y-%m-%d", "%Y%m%d", "%m/%d/%Y"]
    ∧ klugeDate "2006-10-28 00:00:00.123 -0500" = "2006-10-28 00:00:00"
    ∧ DatetimeField.value ministrptime dtDoc (DatetimeField.make "@date" (Sum.inl "junk")) 1
        = Except.ok ⟨2006, 10, 28, 0, 0, 0⟩
    ∧ DatetimeField.value ministrptime dtDoc (DatetimeField.make "@date" (Sum.inl "junk")) 2
        = Except.ok ⟨2006, 10, 28, 0, 0, 0⟩
    ∧ DatetimeField.value ministrptime dtDoc (DatetimeField.make "@date" (Sum.inl "junk")) 3
        = Except.ok ⟨2006, 10, 28, 0, 0, 0⟩
    ∧ DatetimeField.value ministrptime dtDoc (DatetimeField.make "@date" (Sum.inl "junk")) 4
        = Except.error "Can not parse date: Bogus Format" :=
  ⟨strptimeLoopEqFindSome strp _ _, fun _ _ => rfl, fun _ _ => rfl, rfl,
   by decide, by decide, by decide, by decide, by decide⟩

/-- C5 counterexample: a Boolean field declared with overlapping token sets
(`x` in both).  The extracted text `x` is a member of the configured
false-token set, yet `value` returns true (the true set is checked first) —
so "returns false exactly when the result is a member of the configured
false-token set" fails as stated. -/
theorem boolean_overlap_cex :
    BooleanField.value overlapDoc overlapBF 0 = Except.ok true
    ∧ "x" ∈ overlapBF.false_values
    ∧ "x" ∈ overlapBF.true_values :=
  ⟨by decide, by decide, by decide⟩

/-- C5 (amended): a Boolean field's value delegates to Text, trims and
lower-cases, returns true exactly when the result is in the true-token set,
returns false exactly when it is in the false-token set and not in the
true-token set (the true set is checked first), and is a ParseError exactly
when it is in neither; token lists supplied at declaration are lower-cased
(matched case-insensitively), absent ones default to the fixed sets. -/
theorem boolean_value_spec (doc : XmlEnv) (f : BooleanField) (dom : Nat) :
    (BooleanField.value doc f dom = Except.ok true
      ↔ pyLower (pyStrip (TextField.value doc f.xpath dom)) ∈ f.true_values)
    ∧ (BooleanField.value doc f dom = Except.ok false
      ↔ (pyLower (pyStrip (TextField.value doc f.xpath dom)) ∈ f.false_values
         ∧ pyLower (pyStrip (TextField.value doc f.xpath dom)) ∉ f.true_values))
    ∧ (BooleanField.value doc f dom
        = Except.error ("The value (" ++ pyLower (pyStrip (TextField.value doc f.xpath dom))
            ++ ") is neither true nor false")
      ↔ (pyLower (pyStrip (TextField.value doc f.xpath dom)) ∉ f.true_values
         ∧ pyLower (pyStrip (TextField.value doc f.xpath dom)) ∉ f.false_values))
    ∧ (∀ xp tv fv, BooleanField.make xp (Option.some tv) (Option.some fv)
        = ⟨xp, tv.map pyLower, fv.map pyLower⟩)
    ∧ (∀ xp, BooleanField.make xp Option.none Option.none
        = ⟨xp, BooleanField.DEFAULT_TRUE_VALUES, BooleanField.DEFAULT_FALSE_VALUES⟩) := by
  refine ⟨?_, ?_, ?_, fun xp tv fv => rfl, fun xp => rfl⟩ <;>
  · unfold BooleanField.value
    by_cases h1 : pyLower (pyStrip (TextField.value doc f.xpath dom)) ∈ f.true_values <;>
      by_cases h2 : pyLower (pyStrip (TextField.value doc f.xpath dom)) ∈ f.false_values <;>
        simp [h1, h2]

/-- C1 counterexample: a Children accessor over a node with exactly one
sub-record.  The first access allocates generator 0 and caches it; a full
iteration yields the one sub-record (length 1).  Re-accessing the accessor
returns the very same generator object with the heap untouched — no XPath
re-evaluation, no fresh generator — and iterating it again yields the empty
sequence (length 0, not the previous length 1). -/
theorem children_reaccess_not_fresh_cex :
    Lazy.call (childrenComp [] childDoc (fun _ => true) "stuff" 0) (PyVal.none, ([] : GenHeap))
      = (Except.ok (PyVal.genRef 0), (PyVal.genRef 0, [[PyVal.record 5]]))
    ∧ consumeGen [[PyVal.record 5]] 0 = ([PyVal.record 5], [[]])
    ∧ Lazy.call (childrenComp [] childDoc (fun _ => true) "stuff" 0) (PyVal.genRef 0, [[]])
      = (Except.ok (PyVal.genRef 0), (PyVal.genRef 0, [[]]))
    ∧ consumeGen [[]] 0 = (([] : List PyVal), [[]])
    ∧ [PyVal.record 5].length = 1
    ∧ ([] : List PyVal).length = 0 :=
  ⟨by decide, by decide, by decide, by decide, by decide, by decide⟩

/-- C1 (amended): the Lazy cell never materializes a Children sequence — what
it caches is the lazy generator object the first access allocates.  Every
re-access returns that same cached generator without re-evaluating the XPath
(the heap is unchanged, no new generator is allocated), so the sequence is not
restartable: a generator consumed to exhaustion stays empty. -/
theorem children_generator_cached (subSchema : List (String × FieldDecl)) (doc : XmlEnv)
    (filt : Nat → Bool) (xpath : String) (dom : Nat) (h : GenHeap) :
    Lazy.call (childrenComp subSchema doc filt xpath dom) (PyVal.none, h)
      = (Except.ok (PyVal.genRef h.length),
         (PyVal.genRef h.length,
          h ++ [(ChildrenField.valueList subSchema doc filt xpath dom).map
                  (fun r => PyVal.record r.dom)]))
    ∧ (∀ (i : Nat) (h2 : GenHeap),
        Lazy.call (childrenComp subSchema doc filt xpath dom) (PyVal.genRef i, h2)
          = (Except.ok (PyVal.genRef i), (PyVal.genRef i, h2)))
    ∧ (∀ (h2 : GenHeap) (i : Nat), (consumeGen ((consumeGen h2 i).2) i).1 = []) := by
  refine ⟨?_, ?_, ?_⟩
  · unfold Lazy.call childrenComp
    simp
  · intro i h2
    unfold Lazy.call
    simp
  · intro h2 i
    exact getDSetSelf h2 i []

/-- C2 counterexample: a FirstChild field (a non-Children field) over a node
with no match.  Its value is Python `None`, which the Lazy cell cannot cache
(it is the cell's own unset sentinel): two consecutive accesses invoke the
instrumented evaluator twice (the counter reaches 2), not once. -/
theorem nonchildren_two_accesses_two_evals_cex :
    Lazy.call (countingFC [] emptyDoc (fun _ => true) "bar" 0) (PyVal.none, 0)
      = (Except.ok PyVal.none, (PyVal.none, 1))
    ∧ Lazy.call (countingFC [] emptyDoc (fun _ => true) "bar" 0) (PyVal.none, 1)
      = (Except.ok PyVal.none, (PyVal.none, 2))
    ∧ (2 : Nat) ≠ 1 :=
  ⟨by decide, by decide, by decide⟩

/-- C2 (amended): for a field whose value computation returns a result other
than Python `None`, the first access invokes the computation and caches the
result, and every subsequent access returns the identical cached result
without invoking the computation (hence the adapter) again: the state — which
carries the instrumented adapter's evaluation counter — is left untouched. -/
theorem lazy_caches_nonnone_result {S : Type} (value : S → Except String PyVal × S)
    (s0 s1 : S) (v : PyVal) (hval : value s0 = (Except.ok v, s1)) (hv : v ≠ PyVal.none) :
    Lazy.call value (PyVal.none, s0) = (Except.ok v, (v, s1))
    ∧ Lazy.call value (v, s1) = (Except.ok v, (v, s1)) := by
  constructor
  · unfold Lazy.call
    simp [hval]
  · unfold Lazy.call
    simp [hv]

/-- C2 witness: an instrumented Text field computation; two consecutive
accesses both return the text with the evaluation counter at 1. -/
theorem lazy_caches_nonnone_result_witness :
    Lazy.call (countingText helloDoc "t" 0) (PyVal.none, 0)
      = (Except.ok (PyVal.str "hello"), (PyVal.str "hello", 1))
    ∧ Lazy.call (countingText helloDoc "t" 0) (PyVal.str "hello", 1)
      = (Except.ok (PyVal.str "hello"), (PyVal.str "hello", 1)) :=
  lazy_caches_nonnone_result (countingText helloDoc "t" 0) 0 1 (PyVal.str "hello")
    (by decide) (by decide)

/-- C8: if the field's value computation raises, the Lazy cell does not cache
the failure: the error propagates, the cache slot stays unset (its effects on
the instrumented state persist), and the next access re-attempts the
evaluation — succeeding once an evaluation succeeds. -/
theorem lazy_failure_not_cached {S : Type} (value : S → Except String PyVal × S)
    (s0 s1 s2 : S) (e : String) (v : PyVal)
    (h1 : value s0 = (Except.error e, s1)) (h2 : value s1 = (Except.ok v, s2)) :
    Lazy.call value (PyVal.none, s0) = (Except.error e, (PyVal.none, s1))
    ∧ Lazy.call value (PyVal.none, s1) = (Except.ok v, (v, s2)) := by
  constructor <;> unfold Lazy.call <;> simp [h1, h2]

/-- C8 witness: a computation whose first evaluation raises and whose second
succeeds; the first access propagates the error without caching it, the
second access succeeds. -/
theorem lazy_failure_not_cached_witness :
    Lazy.call flakyComp (PyVal.none, 0) = (Except.error "boom", (PyVal.none, 1))
    ∧ Lazy.call flakyComp (PyVal.none, 1) = (Except.ok (PyVal.int 5), (PyVal.int 5, 2)) :=
  lazy_failure_not_cached flakyComp 0 1 2 "boom" (PyVal.int 5) (by decide) (by decide)

/-- C9: record construction performs no field evaluation: `XPathRecord.init`
does not even take the document as an argument, every produced Lazy cell's
cache slot is the unset sentinel, and one cell is created per declared field
(of any kind — Integer, Float, Boolean, Datetime included).  ParseErrors
surface only at field access: over the malformed attribute values `stuff` and
`badfloat`, accessing an Integer, Float, Boolean or Datetime field raises,
while the record over that same node was constructed without error; over the
well-formed `1.234` a Float field access succeeds with the denoted value. -/
theorem parse_error_only_at_access (schema : List (String × FieldDecl)) (dom : Nat) :
    ((XPathRecord.init schema dom).cells.all (fun c => decide (c.2.1 = PyVal.none))) = true
    ∧ (XPathRecord.init schema dom).dom = dom
    ∧ (XPathRecord.init schema dom).cells.length = schema.length
    ∧ FieldDecl.value malDoc (FieldDecl.intF "@arg") 3
        = Except.error "invalid literal for int(): stuff"
    ∧ FieldDecl.value malDoc (FieldDecl.floatF "@arg") 3
        = Except.error "could not convert string to float: stuff"
    ∧ FieldDecl.value bazDoc (FieldDecl.floatF "@average") 2
        = Except.error "could not convert string to float: badfloat"
    ∧ FieldDecl.value bazDoc (FieldDecl.floatF "@average") 1
        = Except.ok (PyVal.float (PyFloat.finite (617 / 500)))
    ∧ FieldDecl.value malDoc (FieldDecl.boolF "@arg" ["y"] ["n"]) 3
        = Except.error "The value (stuff) is neither true nor false"
    ∧ FieldDecl.value malDoc (FieldDecl.datetimeF "@arg" []) 3
        = Except.error "Can not parse date: stuff" := by
  refine ⟨?_, rfl, by simp [XPathRecord.init], by decide, by decide, by decide, ?_,
          by decide, by decide⟩
  · simp only [XPathRecord.init, List.all_eq_true, List.mem_map, decide_eq_true_eq]
    rintro c ⟨nf, _, rfl⟩
    rfl
  · have h : FieldDecl.value bazDoc (FieldDecl.floatF "@average") 1
        = Except.ok (PyVal.float (PyFloat.finite
            ((((1 : Nat) : ℚ) + ((234 : Nat) : ℚ) / ((10 : ℚ) ^ (3 : Nat)))
              * ((10 : ℚ) ^ (0 : Int))))) := rfl
    rw [h]
    push_cast
    norm_num

/-- C10: a FirstChild field with no surviving sub-record returns Python
`None` — the very value the Lazy cell uses as its unset sentinel — so the
absent result is never cached: every access from an unset cell invokes the
field's evaluation again (the instrumented counter increases each time) and
stores the sentinel back, leaving the cell unset. -/
theorem fc_absent_not_cached (subSchema : List (String × FieldDecl)) (doc : XmlEnv)
    (filt : Nat → Bool) (xpath : String) (dom : Nat)
    (hnone : FirstChildField.value subSchema doc filt xpath dom = Option.none) :
    ∀ cnt : Nat, Lazy.call (countingFC subSchema doc filt xpath dom) (PyVal.none, cnt)
      = (Except.ok PyVal.none, (PyVal.none, cnt + 1)) := by
  intro cnt
  unfold Lazy.call countingFC
  simp [hnone]

/-- C10 witness: two consecutive accesses of an absent FirstChild field each
re-invoke the evaluation (counter 0 → 1 → 2) and leave the cell unset. -/
theorem fc_absent_not_cached_witness :
    Lazy.call (countingFC [] emptyDoc (fun _ => true) "baz" 0) (PyVal.none, 0)
      = (Except.ok PyVal.none, (PyVal.none, 1))
    ∧ Lazy.call (countingFC [] emptyDoc (fun _ => true) "baz" 0) (PyVal.none, 1)
      = (Except.ok PyVal.none, (PyVal.none, 2)) :=
  ⟨fc_absent_not_cached [] emptyDoc (fun _ => true) "baz" 0 (by decide) 0,
   fc_absent_not_cached [] emptyDoc (fun _ => true) "baz" 0 (by decide) 1⟩
